import Mathlib

/-!
# The libp2p-daemon node of `localp2pd/localp2pd.go`

A shallow embedding of the `LocalP2pd` node: its construction from an attribute
map (`NewNode`), the daemon argument list (`cmdArgs`), the process life cycle
(`Start`, `Stop`, `signalAndWait`), the lazily created control client
(`acquireClient`) and the operations that go through it (`PeerID`,
`SwarmAddrs`, `Connect`).

The node's fields are a record; everything outside the node that the code
touches (files, spawned processes, delivered signals, clients, connect calls)
is an explicit `World` that each operation threads through.  Results of calls
into the operating system, the daemon client library and the remote node are
supplied by environment records, one field per call site.
-/

namespace pluginlocalp2pd

/-! ## Data model -/

/-- Go `error` values that the package can return.  `errTimeout` is the package
sentinel, compared by identity in `Stop`; every other error is carried by its
message. -/
inductive Error where
  | errTimeout
  | other (msg : String)
deriving DecidableEq, Repr

/-- Text of an error, as `err.Error()` gives it. -/
def Error.message : Error → String
  | .errTimeout => "timed out waiting for process to exit"
  | .other msg => msg

/-- The struct `connManagerConfig`; a nil `*int` is `none`. -/
structure connManagerConfig where
  lowWatermark : Option Int
  highWatermark : Option Int
  gracePeriod : Option Int
deriving DecidableEq, Repr

/-- The struct `LocalP2pd`.  `process` is the `*os.Process` (by pid, `none`
for nil), `mclient` is `true` while the mutex is held, `client` is the
`*client.Client` (by instance number, `none` for nil). -/
structure LocalP2pd where
  command : String
  dir : String
  connManager : Option connManagerConfig
  dhtMode : String
  bootstrap : Bool
  bootstrapPeers : String
  process : Option Nat
  alive : Bool
  mclient : Bool
  client : Option Nat
deriving DecidableEq, Repr

/-- Go `strconv.Itoa`: decimal rendering with a leading minus sign for
negative numbers. -/
def Itoa (i : Int) : String := toString i

/-- The components of a path between its slashes. -/
def splitSlash : List Char → List (List Char)
  | [] => [[]]
  | c :: cs =>
    match splitSlash cs with
    | [] => [[c]]
    | comp :: rest => if c = '/' then [] :: comp :: rest else (c :: comp) :: rest

/-- One component in Go `filepath.Clean`, the kept components held last
first: empty and `.` components are dropped, `..` takes back the component
before it, or is dropped at the root, or is kept at the start of a relative
path. -/
def cleanStep (rooted : Bool) (kept : List (List Char)) (comp : List Char) :
    List (List Char) :=
  if comp = [] then kept
  else if comp = ['.'] then kept
  else if comp = ['.', '.'] then
    match kept with
    | [] => if rooted then [] else [comp]
    | top :: rest => if top = ['.', '.'] then comp :: kept else rest
  else comp :: kept

/-- Go `filepath.Clean` on a Unix path. -/
def filepathClean (path : String) : String :=
  let rooted := decide (path.data.head? = some '/')
  let kept := (splitSlash path.data).foldl (cleanStep rooted) []
  let body := String.intercalate "/" (kept.reverse.map String.mk)
  if rooted then "/" ++ body else if body = "" then "." else body

/-- Go `filepath.Join` of a directory and a file name on Unix: empty elements
are left out and the rest, joined by slashes, is cleaned.  The operations
below take the join function from their environment; this one instantiates
it. -/
def filepathJoin (dir name : String) : String :=
  match [dir, name].filter (fun e => e ≠ "") with
  | [] => ""
  | elems => filepathClean (String.intercalate "/" elems)

/-! ## NewNode -/

/-- One of the three `if v, ok := attrs[key]; ok { ... }` blocks of `NewNode`
(lines 79-110): with the attribute absent the configuration is kept; with it
present, a nil `connManager` is an error, a value that `atoi` rejects is an
error, and otherwise the field is stored through `set`. -/
def parseMark (atoi : String → Except String Int) (attr : Option String)
    (connManager : Option connManagerConfig) (missing : String)
    (set : connManagerConfig → Int → connManagerConfig) :
    Except Error (Option connManagerConfig) :=
  match attr with
  | none => .ok connManager
  | some v =>
    match connManager with
    | none => .error (.other missing)
    | some cm =>
      match atoi v with
      | .error e => .error (.other ("parsing low watermark: " ++ e))
      | .ok n => .ok (some (set cm n))

/-- The constructor `NewNode` (lines 59-134).  `attrs` is the attribute map,
seen through its lookup; `atoi` is `strconv.Atoi`. -/
def NewNode (atoi : String → Except String Int) (dir : String)
    (attrs : String → Option String) : Except Error LocalP2pd :=
  let dhtMode := match attrs "dhtmode" with
    | some v => v
    | none => "off"
  let connManager0 : Option connManagerConfig :=
    match attrs "connmanager" with
    | some _ => some { lowWatermark := none, highWatermark := none, gracePeriod := none }
    | none => none
  match parseMark atoi (attrs "connmanagerlowmark") connManager0
      "conn manager low watermark provided without enabling conn manager"
      (fun cm n => { cm with lowWatermark := some n }) with
  | .error e => .error e
  | .ok connManager1 =>
  match parseMark atoi (attrs "connmanagerhighmark") connManager1
      "conn manager high watermark provided without enabling conn manager"
      (fun cm n => { cm with highWatermark := some n }) with
  | .error e => .error e
  | .ok connManager2 =>
  match parseMark atoi (attrs "connmanagergraceperiod") connManager2
      "conn manager grace period provided without enabling conn manager"
      (fun cm n => { cm with gracePeriod := some n }) with
  | .error e => .error e
  | .ok connManager3 =>
  let bootstrap := match attrs "bootstrap" with
    | some _ => true
    | none => false
  let bootstrapPeers := match attrs "bootstrapPeers" with
    | some v => v
    | none => ""
  let command := match attrs "command" with
    | some v => v
    | none => ""
  .ok { command := command
        dir := dir
        dhtMode := dhtMode
        connManager := connManager3
        bootstrap := bootstrap
        bootstrapPeers := bootstrapPeers
        process := none
        alive := false
        mclient := false
        client := none }

/-- Value of a decimal digit character. -/
def digitValue (c : Char) : Option Nat :=
  if c.toNat < 48 then none else if 57 < c.toNat then none else some (c.toNat - 48)

/-- Reads a run of decimal digits, most significant first, onto `acc`. -/
def readDigits : List Char → Nat → Option Nat
  | [], acc => some acc
  | c :: cs, acc =>
    match digitValue c with
    | none => none
    | some d => readDigits cs (acc * 10 + d)

/-- A decimal reader with the shape of `strconv.Atoi` on a 64-bit platform: an
optional sign, at least one digit, nothing else, and a result within the range
of `int`.  The error text holds the input as it is, which is what
`strconv.Quote` gives for printable text without quotes or backslashes.  The
theorems below hold for every `atoi`; this one instantiates them. -/
def decimalAtoi (s : String) : Except String Int :=
  let syntaxErr : Except String Int :=
    .error ("strconv.Atoi: parsing \"" ++ s ++ "\": invalid syntax")
  let rangeErr : Except String Int :=
    .error ("strconv.Atoi: parsing \"" ++ s ++ "\": value out of range")
  let body (neg : Bool) (cs : List Char) : Except String Int :=
    match cs with
    | [] => syntaxErr
    | _ :: _ =>
      match readDigits cs 0 with
      | none => syntaxErr
      | some n =>
        if neg then (if n ≤ 9223372036854775808 then .ok (-(n : Int)) else rangeErr)
        else (if n ≤ 9223372036854775807 then .ok (n : Int) else rangeErr)
  match s.data with
  | '-' :: cs => body true cs
  | '+' :: cs => body false cs
  | cs => body false cs

/-! ## cmdArgs -/

/-- The method `sockPath` (lines 136-138). -/
def sockPath (l : LocalP2pd) : String := l.dir ++ "/p2pd.sock"

/-- The method `cmdArgs` (lines 140-177): `args` starts empty and each
`append` extends it at the end. -/
def cmdArgs (l : LocalP2pd) : List String := Id.run do
  let mut args : List String := []
  if l.dhtMode = "full" then
    args := args ++ ["-dht"]
  else if l.dhtMode = "client" then
    args := args ++ ["-dhtClient"]
  if l.bootstrap then
    args := args ++ ["-b"]
  if l.bootstrapPeers ≠ "" then
    args := args ++ ["-bootstrapPeers", l.bootstrapPeers]
  match l.connManager with
  | none => pure ()
  | some cm =>
    args := args ++ ["-connManager"]
    match cm.gracePeriod with
    | some g => args := args ++ ["-connGrace", Itoa g]
    | none => pure ()
    match cm.highWatermark with
    | some h => args := args ++ ["-connHi", Itoa h]
    | none => pure ()
    match cm.lowWatermark with
    | some lo => args := args ++ ["-connLo", Itoa lo]
    | none => pure ()
    args := args ++ ["-sock", sockPath l]
  return args


/-! ## The world outside the node -/

/-- The signals that `Stop` sends. -/
inductive Signal where
  | SIGTERM
  | SIGQUIT
  | SIGKILL
deriving DecidableEq, Repr

/-- A parsed `ma.Multiaddr`, kept by its text. -/
structure Multiaddr where
  text : String
deriving DecidableEq, Repr

/-- What the code reaches outside the node: `files` are the paths that exist,
`spawned` the commands started by `cmd.Start` (command, arguments, pid),
`signals` the calls of `process.Signal` in order, `stats` the paths given to
`os.Stat` in order, `clients` the number of clients `client.NewClient` has
made, `connects` the calls of `client.Connect` (client, peer, addresses). -/
structure World where
  files : List String
  spawned : List (String × List String × Nat)
  signals : List (Nat × Signal)
  stats : List String
  clients : Nat
  connects : List (Nat × String × List Multiaddr)
deriving DecidableEq, Repr

/-- How a call ends: it returns a value, it panics (a nil dereference, a call of
a nil function, an unlock of a free mutex), or it blocks for ever on
`mclient.Lock`. -/
inductive Outcome (α : Type) where
  | ret (v : α)
  | panic
  | blocked
deriving DecidableEq, Repr

/-- Creating or writing a file makes its path exist. -/
def addFile (files : List String) (path : String) : List String :=
  if path ∈ files then files else files ++ [path]

/-- The files without a path. -/
def removeFile (files : List String) (path : String) : List String :=
  files.filter (fun f => f ≠ path)

/-- The call `os.Remove` on a path: `err` is the error it returns, if any.
When it returns none the path is gone; when it returns one nothing is
removed. -/
def osRemove (files : List String) (path : String) (err : Option String) : List String :=
  match err with
  | none => removeFile files path
  | some _ => files

/-- The path `filepath.Join(l.dir, "p2pd.pid")`, for the library's `join`. -/
def pidPath (join : String → String → String) (l : LocalP2pd) : String :=
  join l.dir "p2pd.pid"

/-! ## Start -/

/-- Results of the calls `Start` makes: `filepath.Join`, the two `os.Create`
(an error message or none), `cmd.Start` for a command with a path and its
arguments (an error message or the pid), `ioutil.WriteFile`, and `os.Stat` of
the socket path at the i-th pass of the wait loop (`true` when the path
exists). -/
structure StartEnv where
  join : String → String → String
  createStdout : Option String
  createStderr : Option String
  cmdStart : String → List String → Except String Nat
  writePid : Option String
  sockPresent : Nat → Bool

/-- The calls `exec.Command(l.command, cmdargs...)` and `cmd.Start()`: `exec`
refuses a command with an empty path before anything is run. -/
def startCmd (env : StartEnv) (command : String) (cmdargs : List String) :
    Except String Nat :=
  if command = "" then .error "exec: no command" else env.cmdStart command cmdargs

/-- The loop `for i := 0; i < 50; i++` of `Start` (lines 259-266), with
`n` passes left before pass `i`: each pass calls `os.Stat`; an error sleeps
and continues, success returns.  The boolean is `true` when the loop returned
from inside. -/
def readinessLoop (sockPresent : Nat → Bool) (path : String) :
    Nat → Nat → World → World × Bool
  | 0, _, w => (w, false)
  | n + 1, i, w =>
    let w1 := { w with stats := w.stats ++ [path] }
    if sockPresent i then (w1, true) else readinessLoop sockPresent path n (i + 1) w1

/-- The method `Start` (lines 222-271); the returned `testbedi.Output` is
always nil and is left out, `none` is a nil error. -/
def Start (l : LocalP2pd) (w : World) (wait : Bool) (args : List String)
    (env : StartEnv) : LocalP2pd × World × Option Error :=
  if l.alive then
    (l, w, some (.other "libp2p daemon is already running"))
  else
    let cmdargs := cmdArgs l ++ args
    match env.createStdout with
    | some e => (l, w, some (.other e))
    | none =>
    let w1 := { w with files := addFile w.files (env.join l.dir "p2pd.stdout") }
    match env.createStderr with
    | some e => (l, w1, some (.other e))
    | none =>
    let w2 := { w1 with files := addFile w1.files (env.join l.dir "p2pd.stderr") }
    match startCmd env l.command cmdargs with
    | .error e => (l, w2, some (.other e))
    | .ok pid =>
    let w3 := { w2 with spawned := w2.spawned ++ [(l.command, cmdargs, pid)] }
    let l1 := { l with process := some pid }
    match env.writePid with
    | some e => (l1, w3, some (.other ("writing libp2p daemon pid: " ++ e)))
    | none =>
    let w4 := { w3 with files := addFile w3.files (pidPath env.join l1) }
    if wait then
      match readinessLoop env.sockPresent (sockPath l1) 50 0 w4 with
      | (w5, true) => (l1, w5, none)
      | (w5, false) =>
        (l1, w5, some (.other
          ("libp2p daemon with pid " ++ toString pid ++ " failed to come online ")))
    else
      (l1, w4, none)

/-! ## Stop -/

/-- What happens at one `signalAndWait`: the signal cannot be delivered, or it
is delivered and the exit notice arrives first, or the timer fires first. -/
inductive StepOutcome where
  | exited
  | timedOut
  | signalFailed (msg : String)
deriving DecidableEq, Repr

/-- The method `signalAndWait` (lines 317-328).  A nil `l.process` panics at
`l.process.Signal`. -/
def signalAndWait (l : LocalP2pd) (w : World) (sig : Signal) (o : StepOutcome) :
    World × Outcome (Option Error) :=
  match l.process with
  | none => (w, .panic)
  | some pid =>
    let w1 := { w with signals := w.signals ++ [(pid, sig)] }
    match o with
    | .signalFailed msg => (w1, .ret (some (.other msg)))
    | .exited => (w1, .ret none)
    | .timedOut => (w1, .ret (some .errTimeout))

/-- The loop `for i := 0; i < 2; i++` of `Stop` (lines 298-302), with `n`
passes left before pass `i`; `some r` when the loop body returned `r` (or
panicked), `none` when the loop ran out. -/
def termLoop (l : LocalP2pd) (step : Nat → StepOutcome) :
    Nat → Nat → World → World × Option (Outcome (Option Error))
  | 0, _, w => (w, none)
  | n + 1, i, w =>
    match signalAndWait l w .SIGTERM (step i) with
    | (w1, .ret (some .errTimeout)) => termLoop l step n (i + 1) w1
    | (w1, r) => (w1, some r)

/-- Lines 298-312 of `Stop`: the two SIGTERM passes, SIGQUIT, SIGKILL, and
the final `return nil`.  `step i` is what happens at the i-th
`signalAndWait`. -/
def escalate (l : LocalP2pd) (w : World) (step : Nat → StepOutcome) :
    World × Outcome (Option Error) :=
  match termLoop l step 2 0 w with
  | (w1, some r) => (w1, r)
  | (w1, none) =>
    match signalAndWait l w1 .SIGQUIT (step 2) with
    | (w2, .ret (some .errTimeout)) =>
      match signalAndWait l w2 .SIGKILL (step 3) with
      | (w3, .ret (some .errTimeout)) => (w3, .ret none)
      | (w3, r) => (w3, r)
    | (w2, r) => (w2, r)

/-- Results of the calls `Stop` makes: `client.Close` (an error message or
none), the four `signalAndWait`, `filepath.Join`, and the deferred
`os.Remove` (an error message or none). -/
structure StopEnv where
  clientClose : Option String
  step : Nat → StepOutcome
  join : String → String → String
  removePid : Option String

/-- The method `Stop` (lines 274-313).  The goroutine that waits for the
process and the timers are behind `env.step`.  The deferred `os.Remove` is
registered after the client is closed, so it runs on every way out of the
escalation, a panic included, and on none before it; the error it returns
is dropped. -/
def Stop (l : LocalP2pd) (w : World) (env : StopEnv) :
    LocalP2pd × World × Outcome (Option Error) :=
  -- l.mclient.Lock()
  if l.mclient then (l, w, .blocked)
  else
    let l1 := { l with mclient := true }
    match l1.client, env.clientClose with
    | some _, some msg => (l1, w, .ret (some (.other msg)))
    | _, _ =>
      let l2 := { l1 with client := none }
      -- l.mclient.Unlock()
      let l3 := { l2 with mclient := false }
      match escalate l3 w env.step with
      | (w1, r) =>
        (l3, { w1 with files := osRemove w1.files (pidPath env.join l3) env.removePid }, r)

/-! ## The control client -/

/-- The function value that `acquireClient` returns: `l.mclient.Unlock`. -/
inductive ReleaseFn where
  | mclientUnlock
deriving DecidableEq, Repr

/-- Calling a release function: nil panics, `l.mclient.Unlock` frees the mutex
and is a fatal error when the mutex is free. -/
def callRelease (f : Option ReleaseFn) (l : LocalP2pd) : Option LocalP2pd :=
  match f with
  | none => none
  | some .mclientUnlock => if l.mclient then some { l with mclient := false } else none

/-- The method `acquireClient` (lines 366-376).  `newClient` is the result of
`client.NewClient` (an error message or none); a new client gets the next
instance number.  The value is the triple (client, release function,
error). -/
def acquireClient (l : LocalP2pd) (w : World) (newClient : Option String) :
    LocalP2pd × World × Outcome (Option Nat × Option ReleaseFn × Option Error) :=
  -- l.mclient.Lock()
  if l.mclient then (l, w, .blocked)
  else
    let l1 := { l with mclient := true }
    match l1.client with
    | none =>
      match newClient with
      | some msg => (l1, w, .ret (none, none, some (.other msg)))
      | none =>
        let l2 := { l1 with client := some w.clients }
        (l2, { w with clients := w.clients + 1 }, .ret (l2.client, some .mclientUnlock, none))
    | some c => (l1, w, .ret (some c, some .mclientUnlock, none))

/-- The statement `defer releaseClient()` taking effect when the caller
leaves with `r`: a nil function value panics at that point. -/
def runDeferred {α : Type} (releaseClient : Option ReleaseFn) (l : LocalP2pd) (w : World)
    (r : α) : LocalP2pd × World × Outcome α :=
  match callRelease releaseClient l with
  | none => (l, w, .panic)
  | some l1 => (l1, w, .ret r)

/-- The method `PeerID` (lines 180-191).  `identify` is the result of
`client.Identify`: an error message, or the peer id and the addresses. -/
def PeerID (l : LocalP2pd) (w : World) (newClient : Option String)
    (identify : Except String (String × List String)) :
    LocalP2pd × World × Outcome (Except Error String) :=
  match acquireClient l w newClient with
  | (l1, w1, .blocked) => (l1, w1, .blocked)
  | (l1, w1, .panic) => (l1, w1, .panic)
  | (l1, w1, .ret (_, releaseClient, err)) =>
    match err with
    | some e => runDeferred releaseClient l1 w1 (.error e)
    | none =>
      match identify with
      | .error e => runDeferred releaseClient l1 w1 (.error (.other e))
      | .ok (peerID, _) => runDeferred releaseClient l1 w1 (.ok peerID)

/-- The method `SwarmAddrs` (lines 199-214). -/
def SwarmAddrs (l : LocalP2pd) (w : World) (newClient : Option String)
    (identify : Except String (String × List String)) :
    LocalP2pd × World × Outcome (Except Error (List String)) :=
  match acquireClient l w newClient with
  | (l1, w1, .blocked) => (l1, w1, .blocked)
  | (l1, w1, .panic) => (l1, w1, .panic)
  | (l1, w1, .ret (_, releaseClient, err)) =>
    match err with
    | some e => runDeferred releaseClient l1 w1 (.error e)
    | none =>
      match identify with
      | .error e => runDeferred releaseClient l1 w1 (.error (.other e))
      | .ok (_, addrs) => runDeferred releaseClient l1 w1 (.ok addrs)

/-! ## Connect -/

/-- The remote node `n testbedi.Core` as `Connect` sees it: the results of
`n.PeerID()` and `n.SwarmAddrs()`. -/
structure Core where
  PeerID : Except Error String
  SwarmAddrs : Except Error (List String)

/-- Results of the calls `Connect` makes: `client.NewClient` if a client has
to be made, the remote node, `ma.NewMultiaddr` (`none` for an error) and
`client.Connect` (an error message or none). -/
structure ConnectEnv where
  newClient : Option String
  remote : Core
  NewMultiaddr : String → Option Multiaddr
  connect : String → List Multiaddr → Option String

/-- The loop over `addrstrs` in `Connect` (lines 354-361): an address that does
not parse is skipped, one that does is appended to `addrs`. -/
def parseLoop (NewMultiaddr : String → Option Multiaddr) :
    List String → List Multiaddr → List Multiaddr
  | [], addrs => addrs
  | addrstr :: rest, addrs =>
    match NewMultiaddr addrstr with
    | none => parseLoop NewMultiaddr rest addrs
    | some addr => parseLoop NewMultiaddr rest (addrs ++ [addr])

/-- The method `Connect` (lines 336-364). -/
def Connect (l : LocalP2pd) (w : World) (env : ConnectEnv) :
    LocalP2pd × World × Outcome (Option Error) :=
  match acquireClient l w env.newClient with
  | (l1, w1, .blocked) => (l1, w1, .blocked)
  | (l1, w1, .panic) => (l1, w1, .panic)
  | (l1, w1, .ret (client, releaseClient, err)) =>
    match err with
    | some e => runDeferred releaseClient l1 w1 (some e)
    | none =>
      match env.remote.PeerID with
      | .error e => runDeferred releaseClient l1 w1 (some e)
      | .ok peerstr =>
        match env.remote.SwarmAddrs with
        | .error e => runDeferred releaseClient l1 w1 (some e)
        | .ok addrstrs =>
          let addrs := parseLoop env.NewMultiaddr addrstrs []
          match client with
          | none => (l1, w1, .panic)
          | some c =>
            let w2 := { w1 with connects := w1.connects ++ [(c, peerstr, addrs)] }
            runDeferred releaseClient l1 w2 ((env.connect peerstr addrs).map Error.other)

/-- The client calls of `n` callers one after the other, the i-th being
`acquireClient` followed by a call of the release function it got; the list
holds the client each caller received.  `none` when a caller does not get a
client and a release function. -/
def acquisitions (newClient : Nat → Option String) :
    Nat → Nat → LocalP2pd → World → Option (LocalP2pd × World × List Nat)
  | 0, _, l, w => some (l, w, [])
  | n + 1, i, l, w =>
    match acquireClient l w (newClient i) with
    | (l1, w1, .ret (some c, some release, none)) =>
      match callRelease (some release) l1 with
      | none => none
      | some l2 =>
        match acquisitions newClient n (i + 1) l2 w1 with
        | none => none
        | some (l3, w3, cs) => some (l3, w3, c :: cs)
    | _ => none

/-! ## Concrete nodes -/

/-- A world in which nothing has happened yet. -/
def emptyWorld : World :=
  { files := [], spawned := [], signals := [], stats := [], clients := 0, connects := [] }

/-- The attribute map that names the daemon command and nothing else. -/
def commandAttrs : String → Option String := fun k =>
  if k = "command" then some "p2pd" else none

/-- The node that `NewNode` makes for directory `/n1` from `commandAttrs`. -/
def freshNode : LocalP2pd :=
  { command := "p2pd", dir := "/n1", connManager := none, dhtMode := "off", bootstrap := false,
    bootstrapPeers := "", process := none, alive := false, mclient := false, client := none }

/-- A run of `Start` in which every call succeeds, the daemon gets pid `pid`
and its socket is there from the third check on. -/
def goodStart (pid : Nat) : StartEnv :=
  { join := filepathJoin, createStdout := none, createStderr := none,
    cmdStart := fun _ _ => .ok pid, writePid := none,
    sockPresent := fun i => decide (2 ≤ i) }

/-- The node after a successful first `Start` of `freshNode`. -/
def runningNode : LocalP2pd := (Start freshNode emptyWorld true [] (goodStart 4242)).1

/-- The world after a successful first `Start` of `freshNode`. -/
def runningWorld : World := (Start freshNode emptyWorld true [] (goodStart 4242)).2.1

/-- The running node after a first `PeerID` call has made its client. -/
def connectedNode : LocalP2pd := (PeerID runningNode runningWorld none (.ok ("QmPeer", []))).1

/-- The world after that `PeerID` call. -/
def connectedWorld : World := (PeerID runningNode runningWorld none (.ok ("QmPeer", []))).2.1

/-! ## Vocabulary of the properties -/

/-- The three numeric connection-manager attributes. -/
def markKeys : List String :=
  ["connmanagerlowmark", "connmanagerhighmark", "connmanagergraceperiod"]

/-- An attribute map is invalid when one of the numeric attributes is supplied
without `connmanager`, or a supplied one is rejected by `atoi`. -/
def invalidAttrs (atoi : String → Except String Int) (attrs : String → Option String) :
    Prop :=
  ∃ k ∈ markKeys, ∃ v, attrs k = some v ∧
    (attrs "connmanager" = none ∨ ∃ e, atoi v = .error e)

/-- The parsed value of a supplied attribute, unset when it is not supplied. -/
def parsedMark (atoi : String → Except String Int) (attrs : String → Option String)
    (k : String) : Option Int :=
  (attrs k).bind (fun v => (atoi v).toOption)

/-- The order in which `Stop` escalates. -/
def escalation : List Signal := [.SIGTERM, .SIGTERM, .SIGQUIT, .SIGKILL]

/-- The number of signal steps, counted from the first, that time out before a
step that does not (4 when all four time out). -/
def timeouts (step : Nat → StepOutcome) : Nat :=
  ([step 0, step 1, step 2, step 3].takeWhile (fun o => decide (o = .timedOut))).length

/-- The process exit is observed at some step: that step's wait ends with the
exit notice and every step before it timed out. -/
def exitObserved (step : Nat → StepOutcome) : Prop :=
  step 0 = .exited ∨
  (step 0 = .timedOut ∧ step 1 = .exited) ∨
  (step 0 = .timedOut ∧ step 1 = .timedOut ∧ step 2 = .exited) ∨
  (step 0 = .timedOut ∧ step 1 = .timedOut ∧ step 2 = .timedOut ∧ step 3 = .exited)

/-- All four signal steps time out. -/
def allTimedOut (step : Nat → StepOutcome) : Prop :=
  step 0 = .timedOut ∧ step 1 = .timedOut ∧ step 2 = .timedOut ∧ step 3 = .timedOut

/-- The attribute map that enables connection management with a low
watermark of 10. -/
def lowmarkAttrs : String → Option String := fun k =>
  if k = "connmanager" then some ""
  else if k = "connmanagerlowmark" then some "10"
  else none

/-- A `Connect` in which the remote node reports a malformed address before
a well-formed one. -/
def mixedConnect : ConnectEnv :=
  { newClient := none
    remote := { PeerID := .ok "QmRemote"
                SwarmAddrs := .ok ["/ip4/bad", "/ip4/1.2.3.4/tcp/4001"] }
    NewMultiaddr := fun a => if a = "/ip4/bad" then none else some ⟨a⟩
    connect := fun _ _ => none }

/-! ## Theorems -/

/-- C6. For every node configuration `cmdArgs` is the concatenation, in this
order, of: `-dht` when `dhtMode` is "full", `-dhtClient` when it is "client",
nothing otherwise; `-b` when `bootstrap` is set; `-bootstrapPeers` and the
peers when that string is not empty; and, when connection management is
enabled, `-connManager`, then `-connGrace g`, `-connHi h`, `-connLo l` for
those of the three that are set, then `-sock <dir>/p2pd.sock`, the numbers in
decimal.  The two configurations of the scenarios give the lists stated
there. -/
theorem cmdArgs_eq (l : LocalP2pd) :
    cmdArgs l =
      (if l.dhtMode = "full" then ["-dht"]
        else if l.dhtMode = "client" then ["-dhtClient"] else [])
      ++ (if l.bootstrap = true then ["-b"] else [])
      ++ (if l.bootstrapPeers ≠ "" then ["-bootstrapPeers", l.bootstrapPeers] else [])
      ++ (match l.connManager with
          | none => []
          | some cm =>
            ["-connManager"]
            ++ (match cm.gracePeriod with
                | some g => ["-connGrace", Itoa g]
                | none => [])
            ++ (match cm.highWatermark with
                | some h => ["-connHi", Itoa h]
                | none => [])
            ++ (match cm.lowWatermark with
                | some lo => ["-connLo", Itoa lo]
                | none => [])
            ++ ["-sock", l.dir ++ "/p2pd.sock"]) ∧
    cmdArgs { freshNode with dhtMode := "full", bootstrap := true, bootstrapPeers := "p1,p2" } =
      ["-dht", "-b", "-bootstrapPeers", "p1,p2"] ∧
    cmdArgs { freshNode with
        connManager := some ⟨some 10, some 50, some 30⟩ } =
      ["-connManager", "-connGrace", "30", "-connHi", "50", "-connLo", "10",
        "-sock", "/n1/p2pd.sock"] := by
  refine ⟨?_, by decide, by decide⟩
  obtain ⟨command, dir, cm, dhtMode, bootstrap, peers, process, alive, mclient, client⟩ := l
  simp only [cmdArgs, Id.run, sockPath]
  rcases cm with _ | ⟨lo, hi, gr⟩
  · by_cases h1 : dhtMode = "full" <;> by_cases h2 : dhtMode = "client" <;>
      cases bootstrap <;> by_cases h3 : peers = "" <;> simp [h1, h2, h3]
  · by_cases h1 : dhtMode = "full" <;> by_cases h2 : dhtMode = "client" <;>
      cases bootstrap <;> by_cases h3 : peers = "" <;>
      cases lo <;> cases hi <;> cases gr <;> simp [h1, h2, h3]
/-- C7. `NewNode` fails exactly when the configuration is invalid: it returns
an error if and only if one of `connmanagerlowmark`, `connmanagerhighmark`,
`connmanagergraceperiod` is supplied without `connmanager`, or a supplied one
of them is not parseable as an integer.  Otherwise it returns a node whose
connection-manager fields hold the parsed values of the supplied attributes
and are unset for the others (and which has no connection-manager record when
`connmanager` is not supplied). -/
theorem NewNode_fails_iff_invalid (atoi : String → Except String Int) (dir : String)
    (attrs : String → Option String) :
    ((∃ e, NewNode atoi dir attrs = .error e) ↔ invalidAttrs atoi attrs) ∧
    (¬ invalidAttrs atoi attrs →
      ∃ l, NewNode atoi dir attrs = .ok l ∧
        l.connManager =
          (attrs "connmanager").map (fun _ =>
            { lowWatermark := parsedMark atoi attrs "connmanagerlowmark"
              highWatermark := parsedMark atoi attrs "connmanagerhighmark"
              gracePeriod := parsedMark atoi attrs "connmanagergraceperiod" })) := by
  have key : ∀ o : Option String, o = none ∨ (∃ v e, o = some v ∧ atoi v = .error e) ∨
      (∃ v n, o = some v ∧ atoi v = .ok n) := by
    intro o
    rcases o with _ | v
    · simp
    · rcases h : atoi v with e | n <;> simp [h]
  simp only [invalidAttrs, markKeys, parsedMark, NewNode, parseMark]
  rcases hc : attrs "connmanager" with _ | c <;>
  rcases key (attrs "connmanagerlowmark") with hl | ⟨lo, e1, hl, hal⟩ | ⟨lo, n1, hl, hal⟩ <;>
  rcases key (attrs "connmanagerhighmark") with hh | ⟨hi, e2, hh, hah⟩ | ⟨hi, n2, hh, hah⟩ <;>
  rcases key (attrs "connmanagergraceperiod") with hg | ⟨gr, e3, hg, hag⟩ | ⟨gr, n3, hg, hag⟩ <;>
  simp [*, Except.toOption]

/-- C7 at a concrete map: connection management enabled with a low watermark
of 10. -/
theorem NewNode_fails_iff_invalid_witness :
    ∃ l, NewNode decimalAtoi "/n1" lowmarkAttrs = .ok l ∧
      l.connManager =
        (lowmarkAttrs "connmanager").map (fun _ =>
          { lowWatermark := parsedMark decimalAtoi lowmarkAttrs "connmanagerlowmark"
            highWatermark := parsedMark decimalAtoi lowmarkAttrs "connmanagerhighmark"
            gracePeriod := parsedMark decimalAtoi lowmarkAttrs "connmanagergraceperiod" }) :=
  (NewNode_fails_iff_invalid decimalAtoi "/n1" lowmarkAttrs).2 (by
    simp only [invalidAttrs, markKeys, lowmarkAttrs]
    rintro ⟨k, hk, v, hv, h⟩
    simp only [List.mem_cons, List.mem_singleton, List.not_mem_nil, or_false] at hk
    rcases hk with rfl | rfl | rfl
    · rcases h with h | ⟨e, h⟩
      · simp at h
      · have hv10 : v = "10" := by simpa using hv.symm
        subst hv10
        have h10 : decimalAtoi "10" = .ok 10 := rfl
        rw [h10] at h
        cases h
    · simp at hv
    · simp at hv)

/-- The signals of the escalation, for a recorded process: they go to that
process and are the first `timeouts step + 1` of the escalation order. -/
theorem escalate_signals (l : LocalP2pd) (w : World) (step : Nat → StepOutcome) (pid : Nat)
    (hp : l.process = some pid) :
    (escalate l w step).1 =
      { w with signals := w.signals ++
          (escalation.take (timeouts step + 1)).map (fun sig => (pid, sig)) } := by
  simp only [escalate, termLoop, signalAndWait, hp, timeouts, escalation]
  rcases h0 : step 0 with _ | _ | m0 <;> rcases h1 : step 1 with _ | _ | m1 <;>
    rcases h2 : step 2 with _ | _ | m2 <;> rcases h3 : step 3 with _ | _ | m3 <;>
    simp

/-- The value of the escalation, for a recorded process: the error of the
first step that does not time out, and nil when there is none. -/
theorem escalate_result (l : LocalP2pd) (w : World) (step : Nat → StepOutcome) (pid : Nat)
    (hp : l.process = some pid) :
    (escalate l w step).2 =
      .ret (match [step 0, step 1, step 2, step 3].dropWhile
              (fun o => decide (o = .timedOut)) with
            | .signalFailed msg :: _ => some (.other msg)
            | _ => none) := by
  simp only [escalate, termLoop, signalAndWait, hp]
  rcases h0 : step 0 with _ | _ | m0 <;> rcases h1 : step 1 with _ | _ | m1 <;>
    rcases h2 : step 2 with _ | _ | m2 <;> rcases h3 : step 3 with _ | _ | m3 <;>
    simp

/-- Without a recorded process the escalation panics at the first signal and
sends nothing. -/
theorem escalate_nil_process (l : LocalP2pd) (w : World) (step : Nat → StepOutcome)
    (hp : l.process = none) : escalate l w step = (w, .panic) := by
  simp [escalate, termLoop, signalAndWait, hp]

/-- C1. `Stop` never sends more signals than necessary.  In every state and for
every sequence of step outcomes the signals it sends are the first `n` of
TERM, TERM, QUIT, KILL for some `n` that is at most one more than the number
of leading timeouts.  When the lock is free, a process is recorded and the
client close does not fail, `n` is exactly that: the signals stop at the first
step whose outcome is not a timeout.  An exit during the first wait gives
exactly one signal; surviving TERM, TERM and QUIT and dying on KILL gives the
four signals in order; in both cases `Stop` returns nil. -/
theorem Stop_signals_minimal (l : LocalP2pd) (w : World) (env : StopEnv) :
    (∃ n, n ≤ timeouts env.step + 1 ∧
      (Stop l w env).2.1.signals =
        w.signals ++ (escalation.take n).map (fun sig => (l.process.getD 0, sig))) ∧
    (∀ pid, l.mclient = false → l.process = some pid →
      (l.client = none ∨ env.clientClose = none) →
      (Stop l w env).2.1.signals =
          w.signals ++ (escalation.take (timeouts env.step + 1)).map (fun sig => (pid, sig)) ∧
      (env.step 0 = .exited →
        (Stop l w env).2.1.signals = w.signals ++ [(pid, .SIGTERM)] ∧
        (Stop l w env).2.2 = .ret none) ∧
      (env.step 0 = .timedOut → env.step 1 = .timedOut → env.step 2 = .timedOut →
        env.step 3 = .exited →
        (Stop l w env).2.1.signals =
          w.signals ++ [(pid, .SIGTERM), (pid, .SIGTERM), (pid, .SIGQUIT), (pid, .SIGKILL)] ∧
        (Stop l w env).2.2 = .ret none)) := by
  have hexact : ∀ pid, l.mclient = false → l.process = some pid →
      (l.client = none ∨ env.clientClose = none) →
      (Stop l w env).2.1.signals =
        w.signals ++ (escalation.take (timeouts env.step + 1)).map (fun sig => (pid, sig)) ∧
      (Stop l w env).2.2 =
        .ret (match [env.step 0, env.step 1, env.step 2, env.step 3].dropWhile
                (fun o => decide (o = .timedOut)) with
              | .signalFailed msg :: _ => some (.other msg)
              | _ => none) := by
    intro pid hlock hp hclose
    have hs := escalate_signals { l with mclient := false, client := none } w env.step pid hp
    have hr := escalate_result { l with mclient := false, client := none } w env.step pid hp
    rcases hclose with hc | hc
    · simp [Stop, hlock, hc, hs, hr]
    · rcases hcl : l.client with _ | c <;> simp [Stop, hlock, hc, hcl, hs, hr]
  refine ⟨?_, ?_⟩
  · rcases hlock : l.mclient with _ | _
    · rcases hp : l.process with _ | pid
      · refine ⟨0, Nat.zero_le _, ?_⟩
        have he := escalate_nil_process { l with mclient := false, client := none } w env.step hp
        rcases hcl : l.client with _ | c <;> rcases hc : env.clientClose with _ | msg <;>
          simp [Stop, hlock, hcl, hc, he]
      · by_cases hclose : l.client = none ∨ env.clientClose = none
        · exact ⟨timeouts env.step + 1, le_refl _, by
            simpa using (hexact pid hlock hp hclose).1⟩
        · refine ⟨0, Nat.zero_le _, ?_⟩
          rcases hcl : l.client with _ | c
          · exact absurd (Or.inl hcl) hclose
          · rcases hc : env.clientClose with _ | msg
            · exact absurd (Or.inr hc) hclose
            · simp [Stop, hlock, hcl, hc]
    · exact ⟨0, Nat.zero_le _, by simp [Stop, hlock]⟩
  · intro pid hlock hp hclose
    obtain ⟨hs, hr⟩ := hexact pid hlock hp hclose
    refine ⟨hs, ?_, ?_⟩
    · intro h0
      rw [hs, hr]
      simp [timeouts, escalation, h0]
    · intro h0 h1 h2 h3
      rw [hs, hr]
      simp [timeouts, escalation, h0, h1, h2, h3]

/-- C1 at a concrete run: the running node, the process exiting during the
second SIGTERM wait. -/
theorem Stop_signals_minimal_witness :
    (Stop runningNode runningWorld
        ⟨none, fun i => if i = 0 then .timedOut else .exited, filepathJoin, none⟩).2.1.signals =
      runningWorld.signals ++
        (escalation.take
          (timeouts (fun i => if i = 0 then StepOutcome.timedOut else .exited) + 1)).map
          (fun sig => (4242, sig)) :=
  ((Stop_signals_minimal runningNode runningWorld
    ⟨none, fun i => if i = 0 then .timedOut else .exited, filepathJoin, none⟩).2 4242 (by decide) (by decide)
    (Or.inr rfl)).1

/-- The whole of `Stop` once the lock is taken and the client close does not
fail: the escalation runs on the node with the client cleared and the lock
free again, and the pid file is removed afterwards. -/
theorem Stop_eq_of_close_ok (l : LocalP2pd) (w : World) (env : StopEnv)
    (hlock : l.mclient = false) (hclose : l.client = none ∨ env.clientClose = none) :
    Stop l w env =
      ({ l with mclient := false, client := none },
       { (escalate { l with mclient := false, client := none } w env.step).1 with
          files := osRemove
            (escalate { l with mclient := false, client := none } w env.step).1.files
            (pidPath env.join l) env.removePid },
       (escalate { l with mclient := false, client := none } w env.step).2) := by
  rcases hclose with hc | hc
  · simp [Stop, hlock, hc, pidPath]
  · rcases hcl : l.client with _ | c <;> simp [Stop, hlock, hc, hcl, pidPath]

/-- The whole of `Stop` when the client close fails: it returns the close
error at once, with the lock still held and the world untouched. -/
theorem Stop_eq_of_close_fail (l : LocalP2pd) (w : World) (env : StopEnv) (c : Nat)
    (msg : String) (hlock : l.mclient = false) (hcl : l.client = some c)
    (hc : env.clientClose = some msg) :
    Stop l w env = ({ l with mclient := true }, w, .ret (some (.other msg))) := by
  simp [Stop, hlock, hcl, hc]

/-- A removed path is not among the files. -/
theorem not_mem_removeFile (files : List String) (path : String) :
    path ∉ removeFile files path := by
  simp [removeFile]

/-- C2, counterexample: on a running node whose four signal steps all time
out, `Stop` returns nil and not the timeout error, after sending all four
signals. -/
theorem Stop_all_timeouts_returns_nil :
    (Stop runningNode runningWorld ⟨none, fun _ => .timedOut, filepathJoin, none⟩).2.2 = .ret none ∧
    (Stop runningNode runningWorld ⟨none, fun _ => .timedOut, filepathJoin, none⟩).2.2 ≠ .ret (some .errTimeout) ∧
    (Stop runningNode runningWorld ⟨none, fun _ => .timedOut, filepathJoin, none⟩).2.1.signals =
      [(4242, .SIGTERM), (4242, .SIGTERM), (4242, .SIGQUIT), (4242, .SIGKILL)] := by
  decide

/-- C2, amended.  On a node with the lock free and a process recorded, `Stop`
returns, and never the timeout error: when all four signal steps time out (and
the client close does not fail) it returns nil.  It returns nil exactly when
the client close does not fail and either the process exit is observed at
some step or all four steps time out. -/
theorem Stop_result (l : LocalP2pd) (w : World) (env : StopEnv) (pid : Nat)
    (hlock : l.mclient = false) (hp : l.process = some pid) :
    ∃ r, (Stop l w env).2.2 = .ret r ∧ r ≠ some .errTimeout ∧
      (allTimedOut env.step → (l.client = none ∨ env.clientClose = none) → r = none) ∧
      (r = none ↔ (l.client = none ∨ env.clientClose = none) ∧
        (exitObserved env.step ∨ allTimedOut env.step)) := by
  by_cases hclose : l.client = none ∨ env.clientClose = none
  · rw [Stop_eq_of_close_ok l w env hlock hclose]
    have hr := escalate_result { l with mclient := false, client := none } w env.step pid hp
    refine ⟨_, hr, ?_⟩
    simp only [exitObserved, allTimedOut, hclose, true_and]
    rcases h0 : env.step 0 with _ | _ | m0 <;> rcases h1 : env.step 1 with _ | _ | m1 <;>
      rcases h2 : env.step 2 with _ | _ | m2 <;> rcases h3 : env.step 3 with _ | _ | m3 <;>
      simp
  · rcases hcl : l.client with _ | c
    · exact absurd (Or.inl hcl) hclose
    · rcases hc : env.clientClose with _ | msg
      · exact absurd (Or.inr hc) hclose
      · rw [Stop_eq_of_close_fail l w env c msg hlock hcl hc]
        exact ⟨_, rfl, by simp, by simp, by simp⟩

/-- C2, amended, at a concrete run: the running node, all four steps timing
out. -/
theorem Stop_result_witness :
    ∃ r, (Stop runningNode runningWorld ⟨none, fun _ => .timedOut, filepathJoin, none⟩).2.2 = .ret r ∧
      r ≠ some .errTimeout ∧
      (allTimedOut (fun _ => StepOutcome.timedOut) →
        (runningNode.client = none ∨ (none : Option String) = none) → r = none) ∧
      (r = none ↔ (runningNode.client = none ∨ (none : Option String) = none) ∧
        (exitObserved (fun _ => StepOutcome.timedOut) ∨
          allTimedOut (fun _ => StepOutcome.timedOut))) :=
  Stop_result runningNode runningWorld ⟨none, fun _ => .timedOut, filepathJoin, none⟩ 4242 (by decide) (by decide)

/-- C4, counterexample: `Stop` can return with the pid file still there.
When closing the client fails, `Stop` returns the close error before the
removal is registered; when the removal itself fails, its error is dropped and
`Stop` returns nil. -/
theorem Stop_keeps_pid_file :
    "/n1/p2pd.pid" ∈ connectedWorld.files ∧
    connectedNode.dir ++ "/p2pd.pid" = "/n1/p2pd.pid" ∧
    pidPath filepathJoin connectedNode = "/n1/p2pd.pid" ∧
    (Stop connectedNode connectedWorld ⟨some "close failed", fun _ => .exited, filepathJoin, none⟩).2.2 =
      .ret (some (.other "close failed")) ∧
    "/n1/p2pd.pid" ∈
      (Stop connectedNode connectedWorld
        ⟨some "close failed", fun _ => .exited, filepathJoin, none⟩).2.1.files ∧
    (Stop connectedNode connectedWorld
        ⟨none, fun _ => .exited, filepathJoin, some "directory not empty"⟩).2.2 = .ret none ∧
    "/n1/p2pd.pid" ∈
      (Stop connectedNode connectedWorld
        ⟨none, fun _ => .exited, filepathJoin, some "directory not empty"⟩).2.1.files := by
  decide

/-- C4, amended.  When there is no client or closing it does not fail, and the
final `os.Remove` does not fail, the pid file `filepath.Join(dir, "p2pd.pid")`
does not exist after `Stop` returns, for every node state and every outcome of
the signal deliveries and the waits (a step that returns an error included).
For a directory on which `filepath.Join` gives `<dir>/p2pd.pid`, that is the
path `<dir>/p2pd.pid`.  On a node with the lock free and a process recorded
`Stop` does return. -/
theorem Stop_removes_pid_file (l : LocalP2pd) (w : World) (env : StopEnv)
    (hclose : l.client = none ∨ env.clientClose = none) (hremove : env.removePid = none) :
    (∀ r, (Stop l w env).2.2 = .ret r →
      env.join l.dir "p2pd.pid" ∉ (Stop l w env).2.1.files) ∧
    (∀ r, (Stop l w env).2.2 = .ret r → env.join l.dir "p2pd.pid" = l.dir ++ "/p2pd.pid" →
      l.dir ++ "/p2pd.pid" ∉ (Stop l w env).2.1.files) ∧
    (l.mclient = false → l.process.isSome = true → ∃ r, (Stop l w env).2.2 = .ret r) := by
  have hfree : l.mclient = false → env.join l.dir "p2pd.pid" ∉ (Stop l w env).2.1.files := by
    intro hlock
    rw [Stop_eq_of_close_ok l w env hlock hclose]
    simp only [hremove, osRemove, pidPath]
    exact not_mem_removeFile _ _
  have hret : ∀ r, (Stop l w env).2.2 = .ret r →
      env.join l.dir "p2pd.pid" ∉ (Stop l w env).2.1.files := by
    intro r hr
    rcases hlock : l.mclient with _ | _
    · exact hfree hlock
    · simp [Stop, hlock] at hr
  refine ⟨hret, ?_, ?_⟩
  · intro r hr hclean
    rw [← hclean]
    exact hret r hr
  · intro hlock hp
    obtain ⟨pid, hpid⟩ := Option.isSome_iff_exists.mp hp
    rw [Stop_eq_of_close_ok l w env hlock hclose]
    exact ⟨_, escalate_result { l with mclient := false, client := none } w env.step pid hpid⟩

/-- C4, amended, at a concrete run: the connected node, the client close and
the removal succeeding, the first SIGTERM failing to be delivered. -/
theorem Stop_removes_pid_file_witness :
    (connectedNode.client = none ∨ (none : Option String) = none) ∧
    "/n1/p2pd.pid" ∈ connectedWorld.files ∧
    (Stop connectedNode connectedWorld
        ⟨none, fun _ => .signalFailed "os: process already finished", filepathJoin, none⟩).2.2 =
      .ret (some (.other "os: process already finished")) ∧
    connectedNode.dir ++ "/p2pd.pid" ∉
      (Stop connectedNode connectedWorld
        ⟨none, fun _ => .signalFailed "os: process already finished", filepathJoin, none⟩).2.1.files :=
  ⟨Or.inr rfl, by decide, by decide,
    (Stop_removes_pid_file connectedNode connectedWorld
      ⟨none, fun _ => .signalFailed "os: process already finished", filepathJoin, none⟩
      (Or.inr rfl) rfl).2.1 (some (.other "os: process already finished")) (by decide)
      (by decide)⟩

/-- `Start` never changes the `alive` field. -/
theorem Start_alive (l : LocalP2pd) (w : World) (wait : Bool) (args : List String)
    (env : StartEnv) : (Start l w wait args env).1.alive = l.alive := by
  unfold Start
  by_cases ha : l.alive = true
  · simp [ha]
  · rcases h1 : env.createStdout with _ | e1 <;> rcases h2 : env.createStderr with _ | e2 <;>
      rcases h3 : startCmd env l.command (cmdArgs l ++ args) with e3 | pid <;>
      rcases h4 : env.writePid with _ | e4 <;>
      cases wait <;> simp only [ha, h3, if_false, Bool.false_eq_true, if_true]
    all_goals
      generalize readinessLoop _ _ _ _ _ = r
      rcases r with ⟨w5, _ | _⟩ <;> rfl

/-- C3, the code at the failing input: the node made by `NewNode` for the
command `p2pd` is started successfully and then started again with no `Stop`
in between.  The first `Start` leaves `alive` false, so the second does not
return the already-running error: it spawns a second daemon and replaces the
recorded process. -/
theorem Start_twice_spawns_twice :
    NewNode decimalAtoi "/n1" commandAttrs = .ok freshNode ∧
    freshNode.command = "p2pd" ∧
    Start freshNode emptyWorld true [] (goodStart 4242) = (runningNode, runningWorld, none) ∧
    runningWorld.spawned = [("p2pd", [], 4242)] ∧
    runningNode.process = some 4242 ∧
    runningNode.alive = false ∧
    (Start runningNode runningWorld true [] (goodStart 4243)).2.2 = none ∧
    (Start runningNode runningWorld true [] (goodStart 4243)).2.2 ≠
      some (.other "libp2p daemon is already running") ∧
    (Start runningNode runningWorld true [] (goodStart 4243)).2.1.spawned =
      [("p2pd", [], 4242), ("p2pd", [], 4243)] ∧
    (Start runningNode runningWorld true [] (goodStart 4243)).1.process = some 4243 :=
  ⟨rfl, rfl, by decide, by decide, by decide, by decide, by decide, by decide, by decide,
    by decide⟩

/-- The wait loop when the socket first shows at check `k` of the `n` left: it
makes `k + 1` checks and returns from inside. -/
theorem readinessLoop_found (present : Nat → Bool) (path : String) :
    ∀ (n i : Nat) (w : World) (k : Nat), k < n → (∀ j, j < k → present (i + j) = false) →
      present (i + k) = true →
      readinessLoop present path n i w =
        ({ w with stats := w.stats ++ List.replicate (k + 1) path }, true) := by
  intro n
  induction n with
  | zero => intro i w k hk; omega
  | succ n ih =>
    intro i w k hk hbefore hat
    cases k with
    | zero =>
      have h0 : present i = true := by simpa using hat
      simp [readinessLoop, h0]
    | succ k =>
      have h0 : present i = false := by simpa using hbefore 0 (Nat.succ_pos k)
      have hrec := ih (i + 1) { w with stats := w.stats ++ [path] } k (by omega)
        (fun j hj => by
          have := hbefore (j + 1) (by omega)
          rwa [show i + 1 + j = i + (j + 1) by omega])
        (by rwa [show i + 1 + k = i + (k + 1) by omega])
      simp only [readinessLoop, h0, Bool.false_eq_true, if_false, hrec]
      simp [List.replicate_succ]

/-- The wait loop when the socket shows at none of the `n` checks left: it
makes all `n` checks and runs out. -/
theorem readinessLoop_absent (present : Nat → Bool) (path : String) :
    ∀ (n i : Nat) (w : World), (∀ j, j < n → present (i + j) = false) →
      readinessLoop present path n i w =
        ({ w with stats := w.stats ++ List.replicate n path }, false) := by
  intro n
  induction n with
  | zero => intro i w _; simp [readinessLoop]
  | succ n ih =>
    intro i w habs
    have h0 : present i = false := by simpa using habs 0 (Nat.succ_pos n)
    have hrec := ih (i + 1) { w with stats := w.stats ++ [path] }
      (fun j hj => by
        have := habs (j + 1) (by omega)
        rwa [show i + 1 + j = i + (j + 1) by omega])
    simp only [readinessLoop, h0, Bool.false_eq_true, if_false, hrec]
    simp [List.replicate_succ]

/-- `Start` once the daemon is spawned and its pid recorded, with `wait`
set: the node records the process and the rest is the wait loop. -/
theorem Start_wait_eq (l : LocalP2pd) (w : World) (args : List String) (env : StartEnv)
    (pid : Nat) (halive : l.alive = false) (hout : env.createStdout = none)
    (herr : env.createStderr = none) (hcmd : startCmd env l.command (cmdArgs l ++ args) = .ok pid)
    (hpid : env.writePid = none) :
    ∃ w4 : World, w4.stats = w.stats ∧
      (Start l w false args env).2.1 = w4 ∧ (Start l w false args env).2.2 = none ∧
      (Start l w true args env).2.1 = (readinessLoop env.sockPresent (sockPath l) 50 0 w4).1 ∧
      (Start l w true args env).2.2 =
        (if (readinessLoop env.sockPresent (sockPath l) 50 0 w4).2 = true then none
          else some (.other
            ("libp2p daemon with pid " ++ toString pid ++ " failed to come online "))) := by
  refine ⟨_, ?_, rfl, ?_, ?_, ?_⟩
  · simp [Start, halive, hout, herr, hcmd, hpid]
  · simp [Start, halive, hout, herr, hcmd, hpid]
  · simp only [Start, halive, hout, herr, hcmd, hpid, sockPath]
    simp only [Bool.false_eq_true, if_false, if_true]
    split <;> simp_all
  · simp only [Start, halive, hout, herr, hcmd, hpid, sockPath]
    simp only [Bool.false_eq_true, if_false, if_true]
    split <;> simp_all

/-- C8, counterexample: the daemon is spawned but writing the pid file fails.
`Start` then returns the write error, which does not name the pid, whether
`wait` is set or not; with `wait` not set it does not return success, and with
`wait` set and the socket never there it makes no check. -/
theorem Start_pid_write_error :
    (Start freshNode emptyWorld false []
      { goodStart 4242 with writePid := some "permission denied" }).2.1.spawned =
      [("p2pd", [], 4242)] ∧
    (Start freshNode emptyWorld false []
      { goodStart 4242 with writePid := some "permission denied" }).2.2 =
      some (.other "writing libp2p daemon pid: permission denied") ∧
    (Start freshNode emptyWorld true []
      { goodStart 4242 with writePid := some "permission denied",
                            sockPresent := fun _ => false }).2.1.spawned =
      [("p2pd", [], 4242)] ∧
    (Start freshNode emptyWorld true []
      { goodStart 4242 with writePid := some "permission denied",
                            sockPresent := fun _ => false }).2.2 =
      some (.other "writing libp2p daemon pid: permission denied") ∧
    (Start freshNode emptyWorld true []
      { goodStart 4242 with writePid := some "permission denied",
                            sockPresent := fun _ => false }).2.1.stats = [] := by
  decide

/-- C8, amended.  The readiness wait is bounded and exact.  After the daemon is
spawned and its pid file written, `Start` with `wait` set checks the socket path
`<dir>/p2pd.sock` at most 50 times; when the path first exists at check `k`
it returns success after exactly `k + 1` checks; when the path is absent at
all 50 checks it returns, after exactly 50 checks, the error whose message
names the spawned pid; it returns an error if and only if the path is absent
at all 50 checks.  With `wait` not set it makes no check and returns
success. -/
theorem Start_readiness (l : LocalP2pd) (w : World) (args : List String) (env : StartEnv)
    (pid : Nat) (halive : l.alive = false) (hout : env.createStdout = none)
    (herr : env.createStderr = none) (hcmd : startCmd env l.command (cmdArgs l ++ args) = .ok pid)
    (hpid : env.writePid = none) :
    (∃ n, n ≤ 50 ∧
      (Start l w true args env).2.1.stats = w.stats ++ List.replicate n (l.dir ++ "/p2pd.sock")) ∧
    (∀ k, k < 50 → (∀ j, j < k → env.sockPresent j = false) → env.sockPresent k = true →
      (Start l w true args env).2.2 = none ∧
      (Start l w true args env).2.1.stats =
        w.stats ++ List.replicate (k + 1) (l.dir ++ "/p2pd.sock")) ∧
    ((∀ j, j < 50 → env.sockPresent j = false) →
      (Start l w true args env).2.2 =
        some (.other ("libp2p daemon with pid " ++ toString pid ++ " failed to come online ")) ∧
      (Start l w true args env).2.1.stats =
        w.stats ++ List.replicate 50 (l.dir ++ "/p2pd.sock")) ∧
    ((Start l w true args env).2.2 ≠ none ↔ ∀ j, j < 50 → env.sockPresent j = false) ∧
    ((Start l w false args env).2.2 = none ∧ (Start l w false args env).2.1.stats = w.stats) := by
  obtain ⟨w4, hstats, hw4, hres, hworld, hval⟩ :=
    Start_wait_eq l w args env pid halive hout herr hcmd hpid
  have hfound : ∀ k, k < 50 → (∀ j, j < k → env.sockPresent j = false) →
      env.sockPresent k = true →
      (Start l w true args env).2.2 = none ∧
      (Start l w true args env).2.1.stats =
        w.stats ++ List.replicate (k + 1) (l.dir ++ "/p2pd.sock") := by
    intro k hk hbefore hat
    have h := readinessLoop_found env.sockPresent (sockPath l) 50 0 w4 k hk
      (fun j hj => by simpa using hbefore j hj) (by simpa using hat)
    rw [hworld, hval, h]
    simp [hstats, sockPath]
  have habsent : (∀ j, j < 50 → env.sockPresent j = false) →
      (Start l w true args env).2.2 =
        some (.other ("libp2p daemon with pid " ++ toString pid ++ " failed to come online ")) ∧
      (Start l w true args env).2.1.stats =
        w.stats ++ List.replicate 50 (l.dir ++ "/p2pd.sock") := by
    intro habs
    have h := readinessLoop_absent env.sockPresent (sockPath l) 50 0 w4
      (fun j hj => by simpa using habs j hj)
    rw [hworld, hval, h]
    simp [hstats, sockPath]
  have hdich : (∀ j, j < 50 → env.sockPresent j = false) ∨
      ∃ k, k < 50 ∧ (∀ j, j < k → env.sockPresent j = false) ∧ env.sockPresent k = true := by
    by_cases hex : ∃ k, k < 50 ∧ env.sockPresent k = true
    · right
      refine ⟨Nat.find hex, (Nat.find_spec hex).1, ?_, (Nat.find_spec hex).2⟩
      intro j hj
      have hmin := Nat.find_min hex hj
      have hlt : j < 50 := lt_trans hj (Nat.find_spec hex).1
      cases hpj : env.sockPresent j
      · rfl
      · exact absurd ⟨hlt, hpj⟩ hmin
    · left
      intro j hj
      cases hpj : env.sockPresent j
      · rfl
      · exact absurd ⟨j, hj, hpj⟩ hex
  refine ⟨?_, hfound, habsent, ?_, ?_, ?_⟩
  · rcases hdich with habs | ⟨k, hk, hbefore, hat⟩
    · exact ⟨50, le_refl _, (habsent habs).2⟩
    · exact ⟨k + 1, hk, (hfound k hk hbefore hat).2⟩
  · constructor
    · intro hne
      rcases hdich with habs | ⟨k, hk, hbefore, hat⟩
      · exact habs
      · exact absurd (hfound k hk hbefore hat).1 hne
    · intro habs
      rw [(habsent habs).1]
      simp
  · exact hres
  · rw [hw4]
    exact hstats

/-- C8, amended, at a concrete run: the fresh node, the socket there from the
third check on. -/
theorem Start_readiness_witness :
    (Start freshNode emptyWorld true [] (goodStart 4242)).2.2 = none ∧
    (Start freshNode emptyWorld true [] (goodStart 4242)).2.1.stats =
      emptyWorld.stats ++ List.replicate (2 + 1) (freshNode.dir ++ "/p2pd.sock") :=
  (Start_readiness freshNode emptyWorld [] (goodStart 4242) 4242 rfl rfl rfl rfl rfl).2.1 2
    (by decide) (by decide) (by decide)

/-- The address loop keeps what it has and appends, in order, the parsed
value of each address that parses. -/
theorem parseLoop_eq (NewMultiaddr : String → Option Multiaddr) :
    ∀ (addrstrs : List String) (addrs : List Multiaddr),
      parseLoop NewMultiaddr addrstrs addrs = addrs ++ addrstrs.filterMap NewMultiaddr := by
  intro addrstrs
  induction addrstrs with
  | nil => intro addrs; simp [parseLoop]
  | cons a rest ih =>
    intro addrs
    rcases h : NewMultiaddr a with _ | m
    · simp [parseLoop, h, ih]
    · simp [parseLoop, h, ih]

/-- The addresses that parse and the malformed ones add up to all of them. -/
theorem filterMap_length_add (NewMultiaddr : String → Option Multiaddr) :
    ∀ addrstrs : List String,
      (addrstrs.filterMap NewMultiaddr).length +
        (addrstrs.filter (fun a => (NewMultiaddr a).isNone)).length = addrstrs.length := by
  intro addrstrs
  induction addrstrs with
  | nil => simp
  | cons a rest ih =>
    rcases h : NewMultiaddr a with _ | m
    · simp [List.filterMap_cons, h]; omega
    · simp [List.filterMap_cons, h]; omega

/-- `acquireClient` on a node with the lock free, when a client exists or
making one succeeds: the lock is taken, the client is the stored one and the
release function is `l.mclient.Unlock`. -/
theorem acquireClient_ok (l : LocalP2pd) (w : World) (newClient : Option String)
    (hlock : l.mclient = false) (hclient : l.client.isSome = true ∨ newClient = none) :
    ∃ c, acquireClient l w newClient =
      ({ l with mclient := true, client := some c },
       { w with clients := if l.client.isSome then w.clients else w.clients + 1 },
       .ret (some c, some .mclientUnlock, none)) ∧
      c = l.client.getD w.clients := by
  rcases hcl : l.client with _ | c
  · rcases hclient with h | h
    · simp [hcl] at h
    · exact ⟨w.clients, by simp [acquireClient, hlock, hcl, h], by simp⟩
  · exact ⟨c, by simp [acquireClient, hlock, hcl], by simp⟩

/-- C5. `Connect` with `k` of the `n` remote addresses malformed.  On a node
whose client is there or can be made, with the remote node giving its peer
identifier and its `n` addresses, `Connect` issues exactly one connect call on
the local client: its peer argument is the remote's peer identifier and its
address list holds exactly the `n - k` addresses that parse, in their
original order (the empty list when none parses, the call still made).  The
result of `Connect` is the result of that call, and the lock is free
afterwards. -/
theorem Connect_one_call (l : LocalP2pd) (w : World) (env : ConnectEnv) (peer : String)
    (addrstrs : List String) (hlock : l.mclient = false)
    (hclient : l.client.isSome = true ∨ env.newClient = none)
    (hpeer : env.remote.PeerID = .ok peer) (haddrs : env.remote.SwarmAddrs = .ok addrstrs) :
    (Connect l w env).2.1.connects =
      w.connects ++ [(l.client.getD w.clients, peer, addrstrs.filterMap env.NewMultiaddr)] ∧
    (Connect l w env).1.client = some (l.client.getD w.clients) ∧
    (Connect l w env).2.2 =
      .ret ((env.connect peer (addrstrs.filterMap env.NewMultiaddr)).map Error.other) ∧
    (addrstrs.filterMap env.NewMultiaddr).length =
      addrstrs.length - (addrstrs.filter (fun a => (env.NewMultiaddr a).isNone)).length ∧
    ((∀ a ∈ addrstrs, env.NewMultiaddr a = none) →
      (Connect l w env).2.1.connects = w.connects ++ [(l.client.getD w.clients, peer, [])]) ∧
    (Connect l w env).1.mclient = false := by
  obtain ⟨c, hacq, hc⟩ := acquireClient_ok l w env.newClient hlock hclient
  have hcall : (Connect l w env).2.1.connects =
      w.connects ++ [(l.client.getD w.clients, peer, addrstrs.filterMap env.NewMultiaddr)] := by
    simp [Connect, hacq, hpeer, haddrs, parseLoop_eq, runDeferred, callRelease, hc]
  refine ⟨hcall, ?_, ?_, ?_, ?_, ?_⟩
  · simp [Connect, hacq, hpeer, haddrs, parseLoop_eq, runDeferred, callRelease, hc]
  · simp [Connect, hacq, hpeer, haddrs, parseLoop_eq, runDeferred, callRelease]
  · have := filterMap_length_add env.NewMultiaddr addrstrs
    omega
  · intro hnone
    have hnil : addrstrs.filterMap env.NewMultiaddr = [] := by
      rw [List.filterMap_eq_nil_iff]
      exact hnone
    rw [hcall, hnil]
  · simp [Connect, hacq, hpeer, haddrs, parseLoop_eq, runDeferred, callRelease]

/-- C5 at a concrete run: the running node, the remote reporting a malformed
address and a well-formed one. -/
theorem Connect_one_call_witness :
    (Connect runningNode runningWorld mixedConnect).2.1.connects =
      runningWorld.connects ++
        [(runningNode.client.getD runningWorld.clients, "QmRemote",
          ["/ip4/bad", "/ip4/1.2.3.4/tcp/4001"].filterMap mixedConnect.NewMultiaddr)] :=
  (Connect_one_call runningNode runningWorld mixedConnect "QmRemote"
    ["/ip4/bad", "/ip4/1.2.3.4/tcp/4001"] (by decide) (Or.inr rfl) rfl rfl).1

/-- Further acquisitions on a node that has its client and whose lock is
free: nothing is created and every caller receives that client. -/
theorem acquisitions_existing (newClient : Nat → Option String) (c : Nat) :
    ∀ (n i : Nat) (l : LocalP2pd) (w : World), l.mclient = false → l.client = some c →
      acquisitions newClient n i l w = some (l, w, List.replicate n c) := by
  intro n
  induction n with
  | zero => intro i l w _ _; simp [acquisitions]
  | succ n ih =>
    intro i l w hlock hcl
    cases l
    simp only at hlock hcl
    subst hlock hcl
    simp [acquisitions, acquireClient, callRelease, ih, List.replicate_succ]

/-- C9. `N` acquisitions of the control client on one node, one after the
other, each released before the next, with no client yet and client creation
succeeding: every one of the `N` callers receives the same client instance,
the one stored in the node; exactly one client is created, and it is created
by the first acquisition. -/
theorem acquisitions_one_client (newClient : Nat → Option String) (n : Nat) (l : LocalP2pd)
    (w : World) (hn : 1 ≤ n) (hlock : l.mclient = false) (hnone : l.client = none)
    (hok : ∀ i, newClient i = none) :
    ∃ l1 w1, acquisitions newClient n 0 l w = some (l1, w1, List.replicate n w.clients) ∧
      l1.client = some w.clients ∧ l1.mclient = false ∧
      w1.clients = w.clients + 1 ∧
      (acquireClient l w (newClient 0)).2.1.clients = w.clients + 1 := by
  obtain ⟨m, rfl⟩ : ∃ m, n = m + 1 := ⟨n - 1, by omega⟩
  have hrest := acquisitions_existing newClient w.clients m 1
    { l with mclient := false, client := some w.clients }
    { w with clients := w.clients + 1 } rfl rfl
  refine ⟨{ l with mclient := false, client := some w.clients },
    { w with clients := w.clients + 1 }, ?_, rfl, rfl, rfl, ?_⟩
  · simp [acquisitions, acquireClient, hlock, hnone, hok 0, callRelease, hrest,
      List.replicate_succ]
  · simp [acquireClient, hlock, hnone, hok 0]

/-- C9 at a concrete run: three acquisitions on the running node. -/
theorem acquisitions_one_client_witness :
    ∃ l1 w1, acquisitions (fun _ => none) 3 0 runningNode runningWorld =
        some (l1, w1, List.replicate 3 runningWorld.clients) ∧
      l1.client = some runningWorld.clients ∧ l1.mclient = false ∧
      w1.clients = runningWorld.clients + 1 ∧
      (acquireClient runningNode runningWorld ((fun _ => none : Nat → Option String) 0)).2.1.clients
        = runningWorld.clients + 1 :=
  acquisitions_one_client (fun _ => none) 3 runningNode runningWorld (by decide) (by decide)
    (by decide) (fun _ => rfl)

/-- C10, the code at the failing inputs.  When `client.NewClient` fails,
`acquireClient` returns a nil release function and leaves the lock held, so
`PeerID`, `SwarmAddrs` and `Connect` panic at their deferred call of it, the
lock still held.  When closing the client fails, `Stop` returns the error
with the lock still held. -/
theorem lock_not_released :
    acquireClient runningNode runningWorld (some "dial failed") =
      ({ runningNode with mclient := true }, runningWorld,
        .ret (none, none, some (.other "dial failed"))) ∧
    (PeerID runningNode runningWorld (some "dial failed") (.ok ("QmPeer", []))).2.2 = .panic ∧
    (PeerID runningNode runningWorld (some "dial failed") (.ok ("QmPeer", []))).1.mclient = true ∧
    (SwarmAddrs runningNode runningWorld (some "dial failed") (.ok ("QmPeer", []))).2.2
      = .panic ∧
    (SwarmAddrs runningNode runningWorld (some "dial failed") (.ok ("QmPeer", []))).1.mclient
      = true ∧
    (Connect runningNode runningWorld { mixedConnect with newClient := some "dial failed" }).2.2
      = .panic ∧
    (Connect runningNode runningWorld { mixedConnect with newClient := some "dial failed" }).1.mclient
      = true ∧
    (Stop connectedNode connectedWorld ⟨some "close failed", fun _ => .exited, filepathJoin, none⟩).2.2 =
      .ret (some (.other "close failed")) ∧
    (Stop connectedNode connectedWorld ⟨some "close failed", fun _ => .exited, filepathJoin, none⟩).1.mclient = true :=
  ⟨rfl, rfl, rfl, rfl, rfl, rfl, rfl, rfl, rfl⟩

example : NewNode decimalAtoi "/n1" commandAttrs = .ok freshNode := by rfl
example : filepathJoin "/n1" "p2pd.pid" = "/n1/p2pd.pid" := by decide
example : filepathJoin "" "p2pd.pid" = "p2pd.pid" := by decide
example : filepathJoin "/n1/" "p2pd.pid" = "/n1/p2pd.pid" := by decide
example : filepathJoin "/" "p2pd.pid" = "/p2pd.pid" := by decide
example : filepathJoin "." "p2pd.pid" = "p2pd.pid" := by decide
example : filepathJoin "a//b/./c/.." "p2pd.pid" = "a/b/p2pd.pid" := by decide
example : filepathJoin "../a/../.." "p2pd.pid" = "../../p2pd.pid" := by decide
example : filepathJoin "/../a" "p2pd.pid" = "/a/p2pd.pid" := by decide
example : filepathJoin "a/.." "" = "." := by decide
example : filepathJoin "" "" = "" := by decide
example : (Start { freshNode with command := "" } emptyWorld true [] (goodStart 4242)).2.2 =
    some (.other "exec: no command") := by decide
example : runningNode = { freshNode with process := some 4242 } := by decide
example : runningWorld = { emptyWorld with
    files := ["/n1/p2pd.stdout", "/n1/p2pd.stderr", "/n1/p2pd.pid"],
    spawned := [("p2pd", [], 4242)],
    stats := ["/n1/p2pd.sock", "/n1/p2pd.sock", "/n1/p2pd.sock"] } := by decide
example : connectedNode = { runningNode with client := some 0 } := by decide
example : connectedWorld = { runningWorld with clients := 1 } := by decide
example : (Stop runningNode runningWorld ⟨none, fun _ => .timedOut, filepathJoin, none⟩).2.2 = .ret none := by decide
example : (Start freshNode emptyWorld true [] { goodStart 7 with sockPresent := fun _ => false }).2.2
    = some (.other "libp2p daemon with pid 7 failed to come online ") := by decide

end pluginlocalp2pd
